import Mathlib

/-!
Verification of the furniture-manufacturing optimization pipeline
(`task4.py`): a fixed two-product mixed-integer linear program (tables
and chairs) built with PuLP, solved by an external MILP solver, and
post-processed into production quantities, profit, resource usage,
utilization percentages and binding constraints.

Embedding notes.
* Numbers are embedded as rationals (`ℚ`); Python's float arithmetic on
  these small integer-valued data is exact at every comparison the
  program makes, and the source values are all integers.
* The decision variables are declared `cat='Integer'`, and the code
  coerces their solved values with `int(...)`; the raw solution is
  therefore embedded with integer variable values (`ℤ`).
* The PuLP solver is the external collaborator: `optimize_manufacturing_resources`
  is embedded as a function of the `RawSolution` the solver hands back.
  What the solver guarantees when it reports Optimal (feasibility of the
  returned point, consistency of the objective value, optimality) is
  expressed as explicit predicates on `RawSolution`.
-/

/-- The three resources of the problem, in the dictionary (insertion)
order used by the source: labor_hours, wood, machine_time. -/
inductive Resource : Type
  | labor_hours
  | wood
  | machine_time
deriving DecidableEq

/-- The dictionary key under which a resource is stored in the source
(`'labor_hours'`, `'wood'`, `'machine_time'`). -/
def Resource.name : Resource → String
  | .labor_hours => "labor_hours"
  | .wood => "wood"
  | .machine_time => "machine_time"

/-- Iteration order of the `resource_utilization` dict in the source. -/
def resourceOrder : List Resource :=
  [Resource.labor_hours, Resource.wood, Resource.machine_time]

/-- Per-product data dictionary (`table_data` / `chair_data` in the source):
per-unit resource requirements and per-unit profit. -/
structure ProductData : Type where
  labor_hours : ℚ
  wood : ℚ
  machine_time : ℚ
  profit : ℚ
deriving DecidableEq

/-- `table_data` from the source: 8 labor hours, 30 board feet of wood,
4 machine hours, 220 profit per table. -/
def table_data : ProductData :=
  { labor_hours := 8, wood := 30, machine_time := 4, profit := 220 }

/-- `chair_data` from the source: 5 labor hours, 10 board feet of wood,
2 machine hours, 80 profit per chair. -/
def chair_data : ProductData :=
  { labor_hours := 5, wood := 10, machine_time := 2, profit := 80 }

/-- `available_resources` from the source: 400 labor hours, 800 board feet
of wood, 150 machine hours. -/
def available_resources : Resource → ℚ
  | .labor_hours => 400
  | .wood => 800
  | .machine_time => 150

/-- `min_tables = 10` from the source. -/
def min_tables : ℤ := 10

/-- `min_chairs = 20` from the source. -/
def min_chairs : ℤ := 20

/-- Per-unit usage of a resource by a product, as looked up from the
product's data dictionary in the source. -/
def perUnitUsage (p : ProductData) : Resource → ℚ
  | .labor_hours => p.labor_hours
  | .wood => p.wood
  | .machine_time => p.machine_time

/-- Relation of an LP constraint (the source only emits `<=` and `>=`). -/
inductive ConRel : Type
  | le
  | ge
deriving DecidableEq

/-- One named linear constraint over the two decision variables
(coefficient of Tables, coefficient of Chairs, relation, bound). -/
structure LpConstraint : Type where
  name : String
  tableCoeff : ℚ
  chairCoeff : ℚ
  rel : ConRel
  bound : ℚ
deriving DecidableEq

/-- The LP model: sense of the objective (`maximize = true` for
`LpMaximize`), objective coefficients of the two variables, and the
ordered constraint list. -/
structure LpModel : Type where
  maximize : Bool
  objTableCoeff : ℚ
  objChairCoeff : ℚ
  constraints : List LpConstraint

/-- The problem `prob` exactly as the source builds it: maximize
`220*Tables + 80*Chairs` subject to the three resource constraints and
the two minimum-production constraints, in source order and with the
source's constraint names. -/
def prob : LpModel :=
  { maximize := true
    objTableCoeff := table_data.profit
    objChairCoeff := chair_data.profit
    constraints :=
      [ { name := "Labor_Constraint", tableCoeff := table_data.labor_hours,
          chairCoeff := chair_data.labor_hours, rel := ConRel.le,
          bound := available_resources Resource.labor_hours }
      , { name := "Wood_Constraint", tableCoeff := table_data.wood,
          chairCoeff := chair_data.wood, rel := ConRel.le,
          bound := available_resources Resource.wood }
      , { name := "Machine_Time_Constraint", tableCoeff := table_data.machine_time,
          chairCoeff := chair_data.machine_time, rel := ConRel.le,
          bound := available_resources Resource.machine_time }
      , { name := "Minimum_Tables", tableCoeff := 1, chairCoeff := 0,
          rel := ConRel.ge, bound := (min_tables : ℚ) }
      , { name := "Minimum_Chairs", tableCoeff := 0, chairCoeff := 1,
          rel := ConRel.ge, bound := (min_chairs : ℚ) } ] }

/-- A constraint holds at a concrete assignment of the two variables. -/
def LpConstraint.holdsAt (con : LpConstraint) (t c : ℚ) : Prop :=
  match con.rel with
  | ConRel.le => con.tableCoeff * t + con.chairCoeff * c ≤ con.bound
  | ConRel.ge => con.bound ≤ con.tableCoeff * t + con.chairCoeff * c

instance (con : LpConstraint) (t c : ℚ) : Decidable (con.holdsAt t c) :=
  match con with
  | { rel := ConRel.le, .. } => inferInstanceAs (Decidable (_ ≤ _))
  | { rel := ConRel.ge, .. } => inferInstanceAs (Decidable (_ ≤ _))

/-- The model's objective value at a concrete assignment. -/
def evalObjective (m : LpModel) (t c : ℚ) : ℚ :=
  m.objTableCoeff * t + m.objChairCoeff * c

/-- An integer point is feasible for the source's model: the variables
respect their `lowBound=0` declarations and every constraint of `prob`
holds. -/
def feasibleSol (t c : ℤ) : Prop :=
  0 ≤ t ∧ 0 ≤ c ∧ ∀ con ∈ prob.constraints, con.holdsAt (t : ℚ) (c : ℚ)

instance (t c : ℤ) : Decidable (feasibleSol t c) :=
  inferInstanceAs (Decidable (_ ∧ _))

/-- Solver status as reported by PuLP's `LpStatus`; the source only
distinguishes `Optimal` from everything else. -/
inductive Status : Type
  | Optimal
  | NotSolved
  | Infeasible
  | Unbounded
  | Undefined
deriving DecidableEq

/-- What the external solve call leaves behind: the status, the (integer)
values of the two decision variables, the objective value, and the
per-constraint dual values read off as `constraint.pi`. -/
structure RawSolution : Type where
  status : Status
  tables : ℤ
  chairs : ℤ
  objective : ℚ
  duals : List (String × ℚ)

/-- The `results` dictionary the source returns on success. -/
structure Results : Type where
  optimal_tables : ℤ
  optimal_chairs : ℤ
  optimal_profit : ℚ
  labor_used : ℚ
  wood_used : ℚ
  machine_time_used : ℚ
  resource_utilization : Resource → ℚ
  binding_constraints : List String
  shadow_prices : List (String × ℚ)

/-- The two possible shapes of the function's return value: the bare
string `"No optimal solution found."`, or the results dictionary. -/
inductive OptimizeOutput : Type
  | failure (msg : String)
  | success (r : Results)
deriving Inhabited

/-- Python's built-in `abs` on a rational value: the source tests
`abs(utilized_pct - 100) < 0.01`. -/
def pyAbs (q : ℚ) : ℚ :=
  if q < 0 then -q else q

/-- The post-solve part of `optimize_manufacturing_resources`, as a
function of the raw solution produced by the external `prob.solve()`
call: the status check, result extraction, resource usage, utilization
percentages, binding-constraint detection, and shadow prices (copied
from the solver's duals). -/
def optimize_manufacturing_resources (raw : RawSolution) : OptimizeOutput :=
  if raw.status ≠ Status.Optimal then
    OptimizeOutput.failure "No optimal solution found."
  else
    let optimal_tables : ℤ := raw.tables
    let optimal_chairs : ℤ := raw.chairs
    let optimal_profit : ℚ := raw.objective
    let labor_used : ℚ :=
      table_data.labor_hours * optimal_tables + chair_data.labor_hours * optimal_chairs
    let wood_used : ℚ :=
      table_data.wood * optimal_tables + chair_data.wood * optimal_chairs
    let machine_time_used : ℚ :=
      table_data.machine_time * optimal_tables + chair_data.machine_time * optimal_chairs
    let resource_utilization : Resource → ℚ := fun r =>
      match r with
      | Resource.labor_hours => labor_used / available_resources Resource.labor_hours * 100
      | Resource.wood => wood_used / available_resources Resource.wood * 100
      | Resource.machine_time =>
          machine_time_used / available_resources Resource.machine_time * 100
    let binding_constraints : List String :=
      (resourceOrder.filter fun r =>
        decide (pyAbs (resource_utilization r - 100) < 1/100)).map Resource.name
    OptimizeOutput.success
      { optimal_tables := optimal_tables
        optimal_chairs := optimal_chairs
        optimal_profit := optimal_profit
        labor_used := labor_used
        wood_used := wood_used
        machine_time_used := machine_time_used
        resource_utilization := resource_utilization
        binding_constraints := binding_constraints
        shadow_prices := raw.duals }

/-- The resource-usage dictionary of a results value, keyed by resource. -/
def Results.usage (r : Results) : Resource → ℚ
  | .labor_hours => r.labor_used
  | .wood => r.wood_used
  | .machine_time => r.machine_time_used

/-- The module-level consumer of the return value: it subscripts
`results['optimal_production']` / `['optimal_profit']` unconditionally,
without branching on which shape it received.  Subscripting the failure
string with a string key is a Python `TypeError`, modelled as `none`. -/
def moduleLevelReport : OptimizeOutput → Option (ℤ × ℤ × ℚ)
  | OptimizeOutput.success r => some (r.optimal_tables, r.optimal_chairs, r.optimal_profit)
  | OptimizeOutput.failure _ => none

/-- Solver contract on an Optimal report: the returned point is feasible
for the model that was handed to `solve`, and the reported objective
value is the model's objective evaluated at that point. -/
def RawSolution.consistent (raw : RawSolution) : Prop :=
  feasibleSol raw.tables raw.chairs ∧
  raw.objective = evalObjective prob (raw.tables : ℚ) (raw.chairs : ℚ)

/-- Solver contract, full optimality: consistent, and no feasible integer
point achieves a larger objective value. -/
def RawSolution.optimalContract (raw : RawSolution) : Prop :=
  raw.consistent ∧
  ∀ t c : ℤ, feasibleSol t c →
    evalObjective prob (t : ℚ) (c : ℚ) ≤ evalObjective prob (raw.tables : ℚ) (raw.chairs : ℚ)

/-- The success-branch record of `optimize_manufacturing_resources`,
named so that its fields can be reasoned about; proved below to be
exactly what the function returns on an Optimal status. -/
def extractedOf (raw : RawSolution) : Results :=
  let optimal_tables : ℤ := raw.tables
  let optimal_chairs : ℤ := raw.chairs
  let optimal_profit : ℚ := raw.objective
  let labor_used : ℚ :=
    table_data.labor_hours * optimal_tables + chair_data.labor_hours * optimal_chairs
  let wood_used : ℚ :=
    table_data.wood * optimal_tables + chair_data.wood * optimal_chairs
  let machine_time_used : ℚ :=
    table_data.machine_time * optimal_tables + chair_data.machine_time * optimal_chairs
  let resource_utilization : Resource → ℚ := fun r =>
    match r with
    | Resource.labor_hours => labor_used / available_resources Resource.labor_hours * 100
    | Resource.wood => wood_used / available_resources Resource.wood * 100
    | Resource.machine_time =>
        machine_time_used / available_resources Resource.machine_time * 100
  let binding_constraints : List String :=
    (resourceOrder.filter fun r =>
      decide (pyAbs (resource_utilization r - 100) < 1/100)).map Resource.name
  { optimal_tables := optimal_tables
    optimal_chairs := optimal_chairs
    optimal_profit := optimal_profit
    labor_used := labor_used
    wood_used := wood_used
    machine_time_used := machine_time_used
    resource_utilization := resource_utilization
    binding_constraints := binding_constraints
    shadow_prices := raw.duals }

/-- The spec's wording of resource usage: the sum, over the products
paired with their solved quantities, of per-unit usage times quantity.
Stated from the spec sentence to be compared with the inlined
per-resource formulas of the source. -/
def usageSpec (t c : ℤ) (res : Resource) : ℚ :=
  (([(table_data, t), (chair_data, c)] : List (ProductData × ℤ)).map
    (fun pq => perUnitUsage pq.1 res * (pq.2 : ℚ))).sum

theorem optimize_eq_success (raw : RawSolution) (hs : raw.status = Status.Optimal) :
    optimize_manufacturing_resources raw = OptimizeOutput.success (extractedOf raw) := by
  unfold optimize_manufacturing_resources
  rw [hs]
  simp only [ne_eq, not_true_eq_false, if_false]
  rfl

theorem optimize_eq_failure (raw : RawSolution) (hs : raw.status ≠ Status.Optimal) :
    optimize_manufacturing_resources raw =
      OptimizeOutput.failure "No optimal solution found." := by
  unfold optimize_manufacturing_resources
  rw [if_pos hs]

/-- Feasibility for the source's model spelt out as the five concrete
integer inequalities (the `0 ≤` variable bounds are implied by the
minimum-production constraints). -/
theorem feasibleSol_iff (t c : ℤ) :
    feasibleSol t c ↔
      8 * t + 5 * c ≤ 400 ∧ 30 * t + 10 * c ≤ 800 ∧ 4 * t + 2 * c ≤ 150 ∧
        10 ≤ t ∧ 20 ≤ c := by
  unfold feasibleSol prob
  simp only [List.forall_mem_cons, List.forall_mem_nil, and_true,
    LpConstraint.holdsAt, table_data, chair_data, available_resources,
    min_tables, min_chairs, one_mul, zero_mul, add_zero, zero_add]
  constructor
  · rintro ⟨ht0, hc0, h1, h2, h3, h4, h5, -⟩
    refine ⟨by exact_mod_cast h1, by exact_mod_cast h2, by exact_mod_cast h3,
      by exact_mod_cast h4, by exact_mod_cast h5⟩
  · rintro ⟨h1, h2, h3, h4, h5⟩
    refine ⟨by omega, by omega, by exact_mod_cast h1, by exact_mod_cast h2,
      by exact_mod_cast h3, by exact_mod_cast h4, by exact_mod_cast h5, by simp⟩

/-- The objective of `prob` at an integer point is `220*t + 80*c`. -/
theorem evalObjective_prob (t c : ℤ) :
    evalObjective prob (t : ℚ) (c : ℚ) = ((220 * t + 80 * c : ℤ) : ℚ) := by
  unfold evalObjective prob table_data chair_data
  push_cast
  ring

/-- No feasible point of the model beats profit 6200 (the wood constraint
times 8 together with the table floor dominates the objective). -/
theorem profit_le_6200 {t c : ℤ} (h : feasibleSol t c) :
    220 * t + 80 * c ≤ 6200 := by
  rw [feasibleSol_iff] at h
  omega

/-- The profit-6200 feasible point is unique: tables 10, chairs 50. -/
theorem profit_6200_unique {t c : ℤ} (h : feasibleSol t c)
    (he : 220 * t + 80 * c = 6200) : t = 10 ∧ c = 50 := by
  rw [feasibleSol_iff] at h
  omega

/-- The canonical optimum (10 tables, 50 chairs) is feasible. -/
theorem feasibleSol_canonical : feasibleSol 10 50 := by
  rw [feasibleSol_iff]
  omega

/-- The resource dictionary keys are pairwise distinct, so a key
identifies its resource. -/
theorem Resource.name_inj {a b : Resource} (h : a.name = b.name) : a = b := by
  cases a <;> cases b <;> first | rfl | (exact absurd h (by decide))

/-- Membership in the binding-constraints list of an extracted result is
exactly the closeness-to-100% test of the source. -/
theorem pyAbs_eq_abs (q : ℚ) : pyAbs q = |q| := by
  unfold pyAbs
  rcases lt_or_le q 0 with h | h
  · rw [if_pos h, abs_of_neg h]
  · rw [if_neg (not_lt.mpr h), abs_of_nonneg h]

theorem extractedOf_binding_mem (raw : RawSolution) (res : Resource) :
    res.name ∈ (extractedOf raw).binding_constraints ↔
      |(extractedOf raw).resource_utilization res - 100| < 1/100 := by
  rw [← pyAbs_eq_abs]
  show res.name ∈ (resourceOrder.filter fun r =>
      decide (pyAbs ((extractedOf raw).resource_utilization r - 100) < 1/100)).map
        Resource.name ↔ _
  constructor
  · intro h
    obtain ⟨a, ha, hname⟩ := List.mem_map.mp h
    obtain ⟨-, hp⟩ := List.mem_filter.mp ha
    cases Resource.name_inj hname
    exact of_decide_eq_true hp
  · intro h
    refine List.mem_map.mpr ⟨res, List.mem_filter.mpr ⟨?_, decide_eq_true h⟩, rfl⟩
    cases res <;> simp [resourceOrder]

/-- Claim C2, as stated, is false: the function does not carry the
specific non-Optimal status to the caller.  Two raw solutions that
differ only in status (Infeasible vs Unbounded) produce the very same
return value, the bare string `"No optimal solution found."`, so the
caller cannot distinguish them. -/
theorem claim_C2_counterexample :
    optimize_manufacturing_resources
        { status := Status.Infeasible, tables := 0, chairs := 0, objective := 0, duals := [] } =
      OptimizeOutput.failure "No optimal solution found." ∧
    optimize_manufacturing_resources
        { status := Status.Unbounded, tables := 0, chairs := 0, objective := 0, duals := [] } =
      OptimizeOutput.failure "No optimal solution found." ∧
    optimize_manufacturing_resources
        { status := Status.Infeasible, tables := 0, chairs := 0, objective := 0, duals := [] } =
      optimize_manufacturing_resources
        { status := Status.Unbounded, tables := 0, chairs := 0, objective := 0, duals := [] } := by
  refine ⟨optimize_eq_failure _ ?_, optimize_eq_failure _ ?_, ?_⟩
  · intro h
    exact Status.noConfusion h
  · intro h
    exact Status.noConfusion h
  · rw [optimize_eq_failure _ (fun h => Status.noConfusion h),
      optimize_eq_failure _ (fun h => Status.noConfusion h)]

/-- Claim C2 (amended): whenever the solver status is not Optimal, the
pipeline returns the one fixed failure value, the string
`"No optimal solution found."`, identical for Infeasible, Unbounded and
every other non-Optimal status; the specific status is not carried. -/
theorem claim_C2_generic_failure (raw : RawSolution)
    (hs : raw.status ≠ Status.Optimal) :
    optimize_manufacturing_resources raw =
      OptimizeOutput.failure "No optimal solution found." :=
  optimize_eq_failure raw hs

theorem claim_C2_generic_failure_witness :
    optimize_manufacturing_resources
        { status := Status.Infeasible, tables := 3, chairs := 7, objective := 0, duals := [] } =
      OptimizeOutput.failure "No optimal solution found." :=
  claim_C2_generic_failure _ (fun h => Status.noConfusion h)

/-- Claim C9: when the solver status is not Optimal the function returns
the bare string `"No optimal solution found."` — a value of a different
shape from the success dictionary, carrying none of the result fields —
and the module-level consumer, which subscripts the returned value
unconditionally, finds no result field there (a `TypeError` in Python,
modelled as `none`). -/
theorem claim_C9_bare_string_unconditional_consumer (raw : RawSolution)
    (hs : raw.status ≠ Status.Optimal) :
    optimize_manufacturing_resources raw =
        OptimizeOutput.failure "No optimal solution found." ∧
      moduleLevelReport (optimize_manufacturing_resources raw) = none := by
  refine ⟨optimize_eq_failure raw hs, ?_⟩
  rw [optimize_eq_failure raw hs]
  rfl

theorem claim_C9_witness :
    optimize_manufacturing_resources
          { status := Status.Undefined, tables := 0, chairs := 0, objective := 5, duals := [] } =
        OptimizeOutput.failure "No optimal solution found." ∧
      moduleLevelReport (optimize_manufacturing_resources
          { status := Status.Undefined, tables := 0, chairs := 0, objective := 5, duals := [] }) =
        none :=
  claim_C9_bare_string_unconditional_consumer _ (fun h => Status.noConfusion h)

/-- Claim C8: every resource limit the utilization computation divides by
is strictly positive (400, 800 and 150), so none of the three divisions
in `resource_utilization` is a division by zero. -/
theorem claim_C8_no_division_by_zero :
    0 < available_resources Resource.labor_hours ∧
      0 < available_resources Resource.wood ∧
      0 < available_resources Resource.machine_time ∧
      ∀ res : Resource, available_resources res ≠ 0 := by
  refine ⟨by norm_num [available_resources], by norm_num [available_resources],
    by norm_num [available_resources], ?_⟩
  intro res
  cases res <;> norm_num [available_resources]

/-- Claim C7: the built model maximizes `220*Tables + 80*Chairs` (the
per-unit profits as objective coefficients), contains exactly one `<=`
constraint per resource — coefficients equal to the per-unit usages and
bound equal to the limit — and no other `<=` constraints, exactly one
`>=` constraint per product with a positive floor (`Tables >= 10`,
`Chairs >= 20`) and no other `>=` constraints, and the constraint names
are the five fixed human-readable strings, pairwise distinct. -/
theorem claim_C7_model_shape :
    prob.maximize = true ∧
    prob.objTableCoeff = table_data.profit ∧
    prob.objChairCoeff = chair_data.profit ∧
    (prob.constraints.countP fun con => decide (con.rel = ConRel.le)) = 3 ∧
    (prob.constraints.countP fun con => decide (con.rel = ConRel.ge)) = 2 ∧
    (prob.constraints.countP fun con =>
      decide (con.rel = ConRel.le ∧
        con.tableCoeff = perUnitUsage table_data Resource.labor_hours ∧
        con.chairCoeff = perUnitUsage chair_data Resource.labor_hours ∧
        con.bound = available_resources Resource.labor_hours)) = 1 ∧
    (prob.constraints.countP fun con =>
      decide (con.rel = ConRel.le ∧
        con.tableCoeff = perUnitUsage table_data Resource.wood ∧
        con.chairCoeff = perUnitUsage chair_data Resource.wood ∧
        con.bound = available_resources Resource.wood)) = 1 ∧
    (prob.constraints.countP fun con =>
      decide (con.rel = ConRel.le ∧
        con.tableCoeff = perUnitUsage table_data Resource.machine_time ∧
        con.chairCoeff = perUnitUsage chair_data Resource.machine_time ∧
        con.bound = available_resources Resource.machine_time)) = 1 ∧
    0 < min_tables ∧
    (prob.constraints.countP fun con =>
      decide (con.rel = ConRel.ge ∧ con.tableCoeff = 1 ∧ con.chairCoeff = 0 ∧
        con.bound = (min_tables : ℚ))) = 1 ∧
    0 < min_chairs ∧
    (prob.constraints.countP fun con =>
      decide (con.rel = ConRel.ge ∧ con.tableCoeff = 0 ∧ con.chairCoeff = 1 ∧
        con.bound = (min_chairs : ℚ))) = 1 ∧
    prob.constraints.map LpConstraint.name =
      ["Labor_Constraint", "Wood_Constraint", "Machine_Time_Constraint",
        "Minimum_Tables", "Minimum_Chairs"] ∧
    (prob.constraints.map LpConstraint.name).Nodup := by
  decide

/-- Claim C1: under the solver contract for an Optimal report on the
canonical fixed inputs, the returned result has production tables = 10
and chairs = 50, profit 6200, resource usage labor 330, wood 800,
machine time 140, utilization percentages 82.5, 100 and 280/3
(displayed as 93.33: it rounds to 93.33 at two decimals), and binding
constraints exactly the wood resource. -/
theorem claim_C1_canonical_scenario (raw : RawSolution)
    (hs : raw.status = Status.Optimal) (h : raw.optimalContract) :
    ∃ r : Results, optimize_manufacturing_resources raw = OptimizeOutput.success r ∧
      r.optimal_tables = 10 ∧ r.optimal_chairs = 50 ∧ r.optimal_profit = 6200 ∧
      r.labor_used = 330 ∧ r.wood_used = 800 ∧ r.machine_time_used = 140 ∧
      r.resource_utilization Resource.labor_hours = 82.5 ∧
      r.resource_utilization Resource.wood = 100 ∧
      r.resource_utilization Resource.machine_time = 280/3 ∧
      |r.resource_utilization Resource.machine_time - 93.33| < 0.005 ∧
      r.binding_constraints = [Resource.wood.name] := by
  obtain ⟨⟨hfeas, hobj⟩, hopt⟩ := h
  have hle : 220 * raw.tables + 80 * raw.chairs ≤ 6200 := profit_le_6200 hfeas
  have hge : 6200 ≤ 220 * raw.tables + 80 * raw.chairs := by
    have h1 := hopt 10 50 feasibleSol_canonical
    rw [evalObjective_prob, evalObjective_prob] at h1
    have h2 : (220 * 10 + 80 * 50 : ℤ) ≤ 220 * raw.tables + 80 * raw.chairs := by
      exact_mod_cast h1
    omega
  obtain ⟨ht, hc⟩ := profit_6200_unique hfeas (le_antisymm hle hge)
  obtain ⟨st, tb, ch, ob, du⟩ := raw
  simp only at hs ht hc hobj
  subst hs ht hc
  have hob : ob = 6200 := by
    rw [hobj, evalObjective_prob]
    norm_num
  subst hob
  have hlu : (extractedOf (RawSolution.mk Status.Optimal 10 50 6200 du)).labor_used = 330 := by
    norm_num [extractedOf, table_data, chair_data]
  have hwu : (extractedOf (RawSolution.mk Status.Optimal 10 50 6200 du)).wood_used = 800 := by
    norm_num [extractedOf, table_data, chair_data]
  have hmu : (extractedOf (RawSolution.mk Status.Optimal 10 50 6200
      du)).machine_time_used = 140 := by
    norm_num [extractedOf, table_data, chair_data]
  have hl : (extractedOf (RawSolution.mk Status.Optimal 10 50 6200 du)).resource_utilization
      Resource.labor_hours = 82.5 := by
    norm_num [extractedOf, table_data, chair_data, available_resources]
  have hw : (extractedOf (RawSolution.mk Status.Optimal 10 50 6200 du)).resource_utilization
      Resource.wood = 100 := by
    norm_num [extractedOf, table_data, chair_data, available_resources]
  have hm : (extractedOf (RawSolution.mk Status.Optimal 10 50 6200 du)).resource_utilization
      Resource.machine_time = 280/3 := by
    norm_num [extractedOf, table_data, chair_data, available_resources]
  have hbl : ¬(pyAbs ((extractedOf (RawSolution.mk Status.Optimal 10 50 6200
      du)).resource_utilization Resource.labor_hours - 100) < 1/100) := by
    rw [hl]
    norm_num [pyAbs]
  have hbw : pyAbs ((extractedOf (RawSolution.mk Status.Optimal 10 50 6200
      du)).resource_utilization Resource.wood - 100) < 1/100 := by
    rw [hw]
    norm_num [pyAbs]
  have hbm : ¬(pyAbs ((extractedOf (RawSolution.mk Status.Optimal 10 50 6200
      du)).resource_utilization Resource.machine_time - 100) < 1/100) := by
    rw [hm]
    norm_num [pyAbs]
  have hb : (extractedOf (RawSolution.mk Status.Optimal 10 50 6200 du)).binding_constraints
      = [Resource.wood.name] := by
    show (resourceOrder.filter fun r =>
      decide (pyAbs ((extractedOf (RawSolution.mk Status.Optimal 10 50 6200
        du)).resource_utilization r - 100) < 1/100)).map Resource.name = [Resource.wood.name]
    rw [resourceOrder]
    simp only [List.filter_cons, List.filter_nil, decide_eq_false hbl, decide_eq_true hbw,
      decide_eq_false hbm]
    rfl
  refine ⟨extractedOf (RawSolution.mk Status.Optimal 10 50 6200 du),
    optimize_eq_success _ rfl, rfl, rfl, rfl, hlu, hwu, hmu, hl, hw, hm, ?_, hb⟩
  rw [hm, abs_lt]
  norm_num

theorem claim_C1_witness :
    ({ status := Status.Optimal, tables := 10, chairs := 50, objective := 6200,
        duals := [] } : RawSolution).status = Status.Optimal ∧
    (∃ r : Results,
      optimize_manufacturing_resources
          { status := Status.Optimal, tables := 10, chairs := 50, objective := 6200,
            duals := [] } = OptimizeOutput.success r ∧
      r.optimal_tables = 10 ∧ r.optimal_chairs = 50 ∧ r.optimal_profit = 6200 ∧
      r.labor_used = 330 ∧ r.wood_used = 800 ∧ r.machine_time_used = 140 ∧
      r.resource_utilization Resource.labor_hours = 82.5 ∧
      r.resource_utilization Resource.wood = 100 ∧
      r.resource_utilization Resource.machine_time = 280/3 ∧
      |r.resource_utilization Resource.machine_time - 93.33| < 0.005 ∧
      r.binding_constraints = [Resource.wood.name]) :=
  ⟨rfl, claim_C1_canonical_scenario _ rfl
    ⟨⟨feasibleSol_canonical, by rw [evalObjective_prob]; norm_num⟩,
      fun t c hf => by
        rw [evalObjective_prob, evalObjective_prob]
        have h2 := profit_le_6200 hf
        have : (220 * t + 80 * c : ℤ) ≤ (220 * 10 + 80 * 50 : ℤ) := by omega
        exact_mod_cast this⟩⟩

/-- Claim C3: for every result produced from an Optimal solve whose
reported objective value is the model's objective at the returned point
(the solver contract), the profit placed in the result equals
`220 * tables + 80 * chairs` for the production quantities placed in the
result, exactly. -/
theorem claim_C3_profit_equals_recomputation (raw : RawSolution)
    (hs : raw.status = Status.Optimal)
    (hobj : raw.objective = evalObjective prob (raw.tables : ℚ) (raw.chairs : ℚ)) :
    ∀ r : Results, optimize_manufacturing_resources raw = OptimizeOutput.success r →
      r.optimal_profit =
        220 * (r.optimal_tables : ℚ) + 80 * (r.optimal_chairs : ℚ) := by
  intro r hr
  rw [optimize_eq_success raw hs] at hr
  injection hr with h
  subst h
  show raw.objective = _
  rw [hobj, evalObjective_prob]
  show _ = 220 * (raw.tables : ℚ) + 80 * (raw.chairs : ℚ)
  push_cast
  ring

theorem claim_C3_witness :
    (extractedOf (RawSolution.mk Status.Optimal 10 50 6200 [])).optimal_profit =
      220 * ((extractedOf (RawSolution.mk Status.Optimal 10 50 6200 [])).optimal_tables : ℚ) +
        80 * ((extractedOf (RawSolution.mk Status.Optimal 10 50 6200 [])).optimal_chairs : ℚ) :=
  claim_C3_profit_equals_recomputation _ rfl
    (by norm_num [evalObjective, prob, table_data, chair_data]) _
    (optimize_eq_success _ rfl)

/-- Claim C4: in every result produced from an Optimal solve, a resource
is listed among the binding constraints exactly when the absolute
difference between its utilization percentage and 100 is strictly below
0.01. -/
theorem claim_C4_binding_iff_near_100 (raw : RawSolution)
    (hs : raw.status = Status.Optimal) :
    ∀ r : Results, optimize_manufacturing_resources raw = OptimizeOutput.success r →
      ∀ res : Resource,
        res.name ∈ r.binding_constraints ↔
          |r.resource_utilization res - 100| < 1/100 := by
  intro r hr res
  rw [optimize_eq_success raw hs] at hr
  injection hr with h
  subst h
  exact extractedOf_binding_mem raw res

theorem claim_C4_witness :
    Resource.wood.name ∈
        (extractedOf (RawSolution.mk Status.Optimal 10 50 6200 [])).binding_constraints ↔
      |(extractedOf (RawSolution.mk Status.Optimal 10 50 6200 [])).resource_utilization
          Resource.wood - 100| < 1/100 :=
  claim_C4_binding_iff_near_100 _ rfl _ (optimize_eq_success _ rfl) Resource.wood

/-- Claim C5: in every result produced from an Optimal solve, the usage
of each resource is the sum over the products of per-unit usage times
the solved quantity, and the utilization percentage is usage divided by
the resource limit, times 100. -/
theorem claim_C5_usage_and_utilization (raw : RawSolution)
    (hs : raw.status = Status.Optimal) :
    ∀ r : Results, optimize_manufacturing_resources raw = OptimizeOutput.success r →
      ∀ res : Resource,
        r.usage res = usageSpec raw.tables raw.chairs res ∧
        r.resource_utilization res = r.usage res / available_resources res * 100 := by
  intro r hr res
  rw [optimize_eq_success raw hs] at hr
  injection hr with h
  subst h
  cases res <;>
    simp [extractedOf, Results.usage, usageSpec, perUnitUsage]

theorem claim_C5_witness :
    (extractedOf (RawSolution.mk Status.Optimal 10 50 6200 [])).usage Resource.wood =
        usageSpec 10 50 Resource.wood ∧
      (extractedOf (RawSolution.mk Status.Optimal 10 50 6200 [])).resource_utilization
          Resource.wood =
        (extractedOf (RawSolution.mk Status.Optimal 10 50 6200 [])).usage Resource.wood /
            available_resources Resource.wood * 100 :=
  claim_C5_usage_and_utilization _ rfl _ (optimize_eq_success _ rfl) Resource.wood

/-- Claim C6: in every result produced from an Optimal solve whose
returned point satisfies the model's constraints (the solver contract),
the production quantities — integers by construction, the source coerces
them with `int(...)` — are at least their floors (tables >= 10,
chairs >= 20) and each resource's usage is at most its limit
(labor <= 400, wood <= 800, machine time <= 150). -/
theorem claim_C6_feasibility_of_result (raw : RawSolution)
    (hs : raw.status = Status.Optimal)
    (hfeas : feasibleSol raw.tables raw.chairs) :
    ∀ r : Results, optimize_manufacturing_resources raw = OptimizeOutput.success r →
      min_tables ≤ r.optimal_tables ∧ min_chairs ≤ r.optimal_chairs ∧
      r.labor_used ≤ available_resources Resource.labor_hours ∧
      r.wood_used ≤ available_resources Resource.wood ∧
      r.machine_time_used ≤ available_resources Resource.machine_time := by
  intro r hr
  rw [optimize_eq_success raw hs] at hr
  injection hr with h
  subst h
  rw [feasibleSol_iff] at hfeas
  obtain ⟨h1, h2, h3, h4, h5⟩ := hfeas
  refine ⟨?_, ?_, ?_, ?_, ?_⟩
  · show min_tables ≤ raw.tables
    rw [min_tables]
    exact h4
  · show min_chairs ≤ raw.chairs
    rw [min_chairs]
    exact h5
  · show table_data.labor_hours * (raw.tables : ℚ) +
        chair_data.labor_hours * (raw.chairs : ℚ) ≤ available_resources Resource.labor_hours
    simp only [table_data, chair_data, available_resources]
    exact_mod_cast h1
  · show table_data.wood * (raw.tables : ℚ) +
        chair_data.wood * (raw.chairs : ℚ) ≤ available_resources Resource.wood
    simp only [table_data, chair_data, available_resources]
    exact_mod_cast h2
  · show table_data.machine_time * (raw.tables : ℚ) +
        chair_data.machine_time * (raw.chairs : ℚ) ≤ available_resources Resource.machine_time
    simp only [table_data, chair_data, available_resources]
    exact_mod_cast h3

theorem claim_C6_witness :
    min_tables ≤ (extractedOf (RawSolution.mk Status.Optimal 10 50 6200 [])).optimal_tables ∧
      min_chairs ≤ (extractedOf (RawSolution.mk Status.Optimal 10 50 6200 [])).optimal_chairs ∧
      (extractedOf (RawSolution.mk Status.Optimal 10 50 6200 [])).labor_used ≤
        available_resources Resource.labor_hours ∧
      (extractedOf (RawSolution.mk Status.Optimal 10 50 6200 [])).wood_used ≤
        available_resources Resource.wood ∧
      (extractedOf (RawSolution.mk Status.Optimal 10 50 6200 [])).machine_time_used ≤
        available_resources Resource.machine_time :=
  claim_C6_feasibility_of_result _ rfl feasibleSol_canonical _ (optimize_eq_success _ rfl)

/-- Claim C10: the binding-constraints list of every result produced from
an Optimal solve only ever contains the three resource keys
(labor_hours, wood, machine_time); the minimum-production constraints
Minimum_Tables and Minimum_Chairs are never reported as binding — also
when the optimum sits exactly on the floor, as the witness with
tables = 10 = floor shows. -/
theorem claim_C10_binding_subset_of_resources (raw : RawSolution)
    (hs : raw.status = Status.Optimal) :
    ∀ r : Results, optimize_manufacturing_resources raw = OptimizeOutput.success r →
      (∀ s ∈ r.binding_constraints,
        s = "labor_hours" ∨ s = "wood" ∨ s = "machine_time") ∧
      "Minimum_Tables" ∉ r.binding_constraints ∧
      "Minimum_Chairs" ∉ r.binding_constraints := by
  intro r hr
  rw [optimize_eq_success raw hs] at hr
  injection hr with h
  subst h
  have hshape : ∀ s ∈ (extractedOf raw).binding_constraints,
      s = "labor_hours" ∨ s = "wood" ∨ s = "machine_time" := by
    intro s hmem
    obtain ⟨a, -, rfl⟩ := List.mem_map.mp hmem
    cases a
    · exact Or.inl rfl
    · exact Or.inr (Or.inl rfl)
    · exact Or.inr (Or.inr rfl)
  refine ⟨hshape, ?_, ?_⟩
  · intro hmem
    rcases hshape _ hmem with h' | h' | h' <;> exact absurd h' (by decide)
  · intro hmem
    rcases hshape _ hmem with h' | h' | h' <;> exact absurd h' (by decide)

theorem claim_C10_witness :
    (∀ s ∈ (extractedOf (RawSolution.mk Status.Optimal 10 50 6200 [])).binding_constraints,
      s = "labor_hours" ∨ s = "wood" ∨ s = "machine_time") ∧
    "Minimum_Tables" ∉
      (extractedOf (RawSolution.mk Status.Optimal 10 50 6200 [])).binding_constraints ∧
    "Minimum_Chairs" ∉
      (extractedOf (RawSolution.mk Status.Optimal 10 50 6200 [])).binding_constraints :=
  claim_C10_binding_subset_of_resources _ rfl _ (optimize_eq_success _ rfl)
